import Mathlib

/-!
Shallow embedding of the GNRC IPv6 network layer (RIOT, `sys/include/net/gnrc/ipv6.h`).

The repository snapshot contains only the public header `ipv6.h`; the bodies of
`gnrc_ipv6_init`, `gnrc_ipv6_demux`, `gnrc_ipv6_get_header`, the receive/send
pipelines and the forwarding engine live in a `gnrc_ipv6.c` that is not part of
the snapshot.  Where a definition embeds such a missing body it is modelled from
the specification document (and from the doc comments of `ipv6.h`, which are in
the snapshot); each such definition says so in its doc comment.  Build-time
constants (`GNRC_IPV6_MSG_QUEUE_SIZE`, `GNRC_IPV6_FIB_TABLE_SIZE`,
`GNRC_IPV6_STATIC_LLADDR`) and the declared C signatures are embedded directly
from the header file.
-/

namespace GnrcIpv6

/-! Build-time configuration constants (from `ipv6.h`). -/

/-- Constant `GNRC_IPV6_MSG_QUEUE_SIZE` of ipv6.h lines 67-68: guarded by an
ifndef, it is 8 unless the build overrides it.  The `Option Nat` argument
models a compiler-command-line override; `none` is the default build. -/
def GNRC_IPV6_MSG_QUEUE_SIZE (override : Option Nat) : Nat :=
  override.getD 8

/-- Constant `GNRC_IPV6_FIB_TABLE_SIZE` (ipv6.h lines 105-111): unless overridden,
20 entries when `MODULE_GNRC_RPL` is defined, else 5. -/
def GNRC_IPV6_FIB_TABLE_SIZE (override : Option Nat) (module_gnrc_rpl : Bool) : Nat :=
  override.getD (if module_gnrc_rpl then 20 else 5)

/-! Embedding of the declared C signatures (from `ipv6.h`). -/

/-- Return types occurring in the declarations of `ipv6.h`. -/
inductive CReturn
  | void
  | kernel_pid_t
  | ptr_ipv6_hdr_t
  deriving DecidableEq, Repr

/-- A C return type carries a value back to the caller unless it is `void`. -/
def CReturn.carriesValue : CReturn → Bool
  | .void => false
  | _ => true

/-- Declared return type of
`void gnrc_ipv6_demux(kernel_pid_t iface, gnrc_pktsnip_t *current, gnrc_pktsnip_t *pkt, uint8_t nh);`
(ipv6.h line 154). -/
def gnrc_ipv6_demux_ret : CReturn := CReturn.void

/-- Declared return type of `kernel_pid_t gnrc_ipv6_init(void);` (ipv6.h line 129). -/
def gnrc_ipv6_init_ret : CReturn := CReturn.kernel_pid_t

/-- Declared return type of `ipv6_hdr_t *gnrc_ipv6_get_header(gnrc_pktsnip_t *pkt);`
(ipv6.h line 167). -/
def gnrc_ipv6_get_header_ret : CReturn := CReturn.ptr_ipv6_hdr_t

/-! Packet snips. -/

/-- The `gnrc_nettype_t` values relevant to this module. -/
inductive Nettype
  | undef
  | netif
  | ipv6
  | ipv6_ext
  | icmpv6
  | udp
  | tcp
  deriving DecidableEq, Repr

/-- One `gnrc_pktsnip_t`: a typed buffer segment.  The chain (`next` pointers)
is modelled as a `List Pktsnip`, outermost protocol first as delivered to the
IPv6 thread. -/
structure Pktsnip where
  type : Nettype
  data : List Nat
  deriving DecidableEq, Repr

/-- Modelled from the spec: the body of `gnrc_ipv6_get_header` is not under
`src/`; `ipv6.h` lines 156-167 document it as returning a pointer to the
`ipv6_hdr_t` of the packet, or `NULL` if the packet contains no IPv6 header,
and the spec calls it a pure lookup with no mutation.  The lookup walks the
snip chain for the first snip of type IPv6 and returns its data (the header
bytes); the second component of the result is the chain as the caller sees it
afterwards, which a pure lookup leaves unchanged. -/
def gnrc_ipv6_get_header (pkt : List Pktsnip) :
    Option (List Nat) × List Pktsnip :=
  ((pkt.find? (fun s => s.type == Nettype.ipv6)).map Pktsnip.data, pkt)

/-! Header Chain Walker (`gnrc_ipv6_demux`). -/

/-- Protocol number `PROTNUM_IPV6_EXT_HOPOPT` (hop-by-hop options header). -/
def PROTNUM_IPV6_EXT_HOPOPT : Nat := 0
/-- Protocol number `PROTNUM_IPV6_EXT_RH` (routing header). -/
def PROTNUM_IPV6_EXT_RH : Nat := 43
/-- Protocol number `PROTNUM_IPV6_EXT_FRAG` (fragment header). -/
def PROTNUM_IPV6_EXT_FRAG : Nat := 44
/-- Protocol number `PROTNUM_IPV6_EXT_ESP`. -/
def PROTNUM_IPV6_EXT_ESP : Nat := 50
/-- Protocol number `PROTNUM_IPV6_EXT_AH`. -/
def PROTNUM_IPV6_EXT_AH : Nat := 51
/-- Protocol number `PROTNUM_IPV6_EXT_DST` (destination options header). -/
def PROTNUM_IPV6_EXT_DST : Nat := 60
/-- Protocol number `PROTNUM_IPV6_EXT_MOB` (mobility header). -/
def PROTNUM_IPV6_EXT_MOB : Nat := 135
/-- Protocol number `PROTNUM_UDP`. -/
def PROTNUM_UDP : Nat := 17

/-- Modelled from the spec: the recognized IPv6 extension header protocol
numbers (the spec glossary: a next-header value denotes either an extension
header type or an upper-layer protocol; `gnrc/ipv6/ext.h` is not under
`src/`). -/
def is_ext_header (nh : Nat) : Bool :=
  nh == PROTNUM_IPV6_EXT_HOPOPT || nh == PROTNUM_IPV6_EXT_RH ||
  nh == PROTNUM_IPV6_EXT_FRAG || nh == PROTNUM_IPV6_EXT_ESP ||
  nh == PROTNUM_IPV6_EXT_AH || nh == PROTNUM_IPV6_EXT_DST ||
  nh == PROTNUM_IPV6_EXT_MOB

/-- Error kinds of the Header Chain Walker (spec §4.1 and §7). -/
inductive DemuxErr
  | MalformedHeader
  | TooManyHeaders
  deriving DecidableEq, Repr

/-- Outcome of the Header Chain Walker (spec §4.1): `delivered` carries the
terminal protocol number and the byte offset at which the upper-layer payload
begins, `forward` carries the offset of the routing header that redirects
processing, `error` carries the error kind. -/
inductive DemuxOutcome
  | delivered (protnum : Nat) (payload_off : Nat)
  | forward (off : Nat)
  | error (k : DemuxErr)
  deriving DecidableEq, Repr

/-- Modelled from the spec: the body of `gnrc_ipv6_demux` is not under `src/`.
One step of the walk per unit of fuel (spec §4.1 and §9: an iterative loop with
an explicit bounded step counter).  `buf` is the byte buffer of the current
snip, `off` the cursor offset, `nh` the next-header value of the header that
begins at `off`, and `first` records whether the cursor still sits on the
header immediately following the fixed IPv6 header (where alone hop-by-hop is
legal).  A generic extension header is `[next-header, hdr-ext-len, data…]`,
occupying `(hdr-ext-len + 1) * 8` bytes.  When the fuel (the configured
maximum extension-header count) runs out while an extension header remains,
the walk is rejected with `TooManyHeaders`. -/
def walkAux (buf : List Nat) : Nat → Nat → Nat → Bool → DemuxOutcome
  | 0, off, nh, _ =>
    if is_ext_header nh then .error .TooManyHeaders else .delivered nh off
  | fuel + 1, off, nh, first =>
    if is_ext_header nh then
      if nh = PROTNUM_IPV6_EXT_RH then
        .forward off
      else if nh = PROTNUM_IPV6_EXT_HOPOPT ∧ ¬ first then
        .error .MalformedHeader
      else if off + 1 < buf.length then
        let size := (buf.getD (off + 1) 0 + 1) * 8
        if off + size ≤ buf.length then
          walkAux buf fuel (off + size) (buf.getD off 0) false
        else
          .error .MalformedHeader
      else
        .error .MalformedHeader
    else
      .delivered nh off

/-- Number of extension headers the walk traverses before it stops on its own
(terminal protocol, routing header, or malformed header), computed with its
own fuel so that it is independent of the configured maximum. -/
def walkSteps (buf : List Nat) : Nat → Nat → Nat → Bool → Nat
  | 0, _, _, _ => 0
  | fuel + 1, off, nh, first =>
    if is_ext_header nh then
      if nh = PROTNUM_IPV6_EXT_RH then 0
      else if nh = PROTNUM_IPV6_EXT_HOPOPT ∧ ¬ first then 0
      else if off + 1 < buf.length then
        let size := (buf.getD (off + 1) 0 + 1) * 8
        if off + size ≤ buf.length then
          1 + walkSteps buf fuel (off + size) (buf.getD off 0) false
        else 0
      else 0
    else 0

/-- The byte offsets of `buf` the walk reads, mirroring `walkAux`: for a
header it accepts it reads the whole header (`off` to `off + size - 1`, logged
as `List.range' off size`), for a header whose declared length overruns the
buffer it reads only the two fixed bytes it inspected before rejecting, and
it reads nothing when even those two bytes are absent. -/
def walkReads (buf : List Nat) : Nat → Nat → Nat → Bool → List Nat
  | 0, _, _, _ => []
  | fuel + 1, off, nh, first =>
    if is_ext_header nh then
      if nh = PROTNUM_IPV6_EXT_RH then []
      else if nh = PROTNUM_IPV6_EXT_HOPOPT ∧ ¬ first then []
      else if off + 1 < buf.length then
        let size := (buf.getD (off + 1) 0 + 1) * 8
        if off + size ≤ buf.length then
          List.range' off size ++
            walkReads buf fuel (off + size) (buf.getD off 0) false
        else [off, off + 1]
      else []
    else []

/-- Modelled from the spec: the demultiplex operation (`gnrc_ipv6_demux`)
starts the walk at offset 0 of the current snip with the caller-supplied
next-header value; `maxHdrs` is the configured maximum extension-header count
(spec §4.1 edge cases). -/
def gnrc_ipv6_demux (maxHdrs : Nat) (buf : List Nat) (nh : Nat) : DemuxOutcome :=
  walkAux buf maxHdrs 0 nh true

/-- Extension-header count of a chain as the demultiplex operation traverses
it, with ample fuel (`buf.length + 1` bounds the number of headers that can be
accepted, since each accepted header occupies at least 8 bytes of `buf`). -/
def demuxExtCount (buf : List Nat) (nh : Nat) : Nat :=
  walkSteps buf (buf.length + 1) 0 nh true

/-- The byte offsets the demultiplex operation reads. -/
def demuxReads (maxHdrs : Nat) (buf : List Nat) (nh : Nat) : List Nat :=
  walkReads buf maxHdrs 0 nh true

/-! Routing table and Forwarding Decision Engine. -/

/-- A routing (FIB) table entry (spec §3): destination prefix (as a bit
string, its length being the prefix length), next hop, egress interface. -/
structure FibEntry where
  pfx : List Bool
  next_hop : Nat
  iface : Nat
  deriving DecidableEq, Repr

/-- Modelled from the spec: longest-prefix-match lookup against the routing
table collaborator (the FIB engine `net/fib.h` is not under `src/`); returns
the entry with the longest prefix matching `dst`, or `none` on a miss. -/
def lpm (fib : List FibEntry) (dst : List Bool) : Option FibEntry :=
  fib.foldl
    (fun best e =>
      if e.pfx.isPrefixOf dst then
        match best with
        | none => some e
        | some b => if b.pfx.length < e.pfx.length then some e else some b
      else best)
    none

/-- The IPv6 fixed header fields the forwarding engine inspects (spec §3). -/
structure Ipv6Hdr where
  version : Nat
  hop_limit : Nat
  src : List Bool
  dst : List Bool
  next_hdr : Nat
  payload_len : Nat
  deriving DecidableEq, Repr

/-- Outcome of the Forwarding Decision Engine (spec §4.3); `Forwarded` and
`Queued` carry the header as mutated (hop limit decremented) when the packet
leaves the engine. -/
inductive ForwardOutcome
  | Forwarded (hdr : Ipv6Hdr)
  | Queued (hdr : Ipv6Hdr)
  | HopLimitExceeded
  | NoRoute
  deriving DecidableEq, Repr

/-- Modelled from the spec: the Forwarding Decision Engine (spec §4.3) is not
under `src/`.  Precondition check first: a hop limit of 0 on arrival is
`HopLimitExceeded` (drop), *before* any decrement.  Otherwise the hop limit is
decremented by 1, the routing table is consulted by longest prefix match
(miss is `NoRoute`), and the packet is handed on: `Forwarded` when the
neighbor cache resolves the next hop, `Queued` when resolution is pending
(`resolved` models the neighbor-cache collaborator's answer). -/
def forward (fib : List FibEntry) (resolved : Bool) (hdr : Ipv6Hdr) :
    ForwardOutcome :=
  if hdr.hop_limit = 0 then
    .HopLimitExceeded
  else
    let hdr' := { hdr with hop_limit := hdr.hop_limit - 1 }
    match lpm fib hdr.dst with
    | none => .NoRoute
    | some _ => if resolved then .Forwarded hdr' else .Queued hdr'

/-! Initialization (`gnrc_ipv6_init`). -/

/-- Sentinel `KERNEL_PID_UNDEF`: the value of an unset `kernel_pid_t`. -/
def KERNEL_PID_UNDEF : Nat := 0

/-- errno `EEXIST`. -/
def EEXIST : Int := 17
/-- errno `EOVERFLOW`. -/
def EOVERFLOW : Int := 75

/-- The process-wide IPv6-layer state the Control Actor owns: the singleton
thread PID variable `gnrc_ipv6_pid` (ipv6.h line 98), `KERNEL_PID_UNDEF`
before initialization. -/
structure IpState where
  gnrc_ipv6_pid : Nat
  deriving DecidableEq, Repr

/-- Modelled from the spec: the body of `gnrc_ipv6_init` is not under `src/`;
`ipv6.h` lines 121-129 document the contract: the PID of the IPv6 thread on
success, `-EOVERFLOW` if there are too many threads running already,
`-EEXIST` if IPv6 was already initialized.  `thread_create` models the kernel
thread-creation collaborator: `some p` when a thread with PID `p` could be
created, `none` on resource exhaustion. -/
def gnrc_ipv6_init (thread_create : Option Nat) (s : IpState) :
    Int × IpState :=
  if s.gnrc_ipv6_pid ≠ KERNEL_PID_UNDEF then
    (-EEXIST, s)
  else
    match thread_create with
    | none => (-EOVERFLOW, s)
    | some p => ((p : Int), { s with gnrc_ipv6_pid := p })

/-! Control Actor mailbox. -/

/-- A mailbox message (spec §3): `RECEIVE` carries the originating interface,
`SEND` does not; both carry the packet reference. -/
inductive MboxMsg
  | RECEIVE (iface : Nat) (pkt : List Pktsnip)
  | SEND (pkt : List Pktsnip)
  deriving DecidableEq, Repr

/-- Modelled from the spec: posting to the Control Actor's bounded mailbox
(spec §5): the post succeeds (FIFO append) when a slot is free, and fails when
the mailbox already holds `cap` messages. -/
def mbox_post (cap : Nat) (q : List MboxMsg) (m : MboxMsg) :
    Option (List MboxMsg) :=
  if q.length < cap then some (q ++ [m]) else none

/-! Receive pipeline with reference-count accounting. -/

/-- Exit paths of the Control Actor's per-message processing (spec §3,
Mailbox Message ownership): local dispatch success, drop, or hand-off to the
forwarding path. -/
inductive RcvOutcome
  | dispatched (protnum : Nat)
  | dropped
  | forwarded
  deriving DecidableEq, Repr

/-- Modelled from the spec: the Receive Pipeline `on_receive` (spec §4.2) is
not under `src/`.  It returns its exit path together with the number of
releases of the packet's reference-count hold it performed on that path.
Step 1 locates the IPv6 header (absence: drop).  Step 2 validates version and
hop limit (a hop limit of 0 makes the packet non-forwardable but still locally
consumable).  Step 3 decides locality (`local_dst` models the interface /
address collaborator).  Step 4 runs the Header Chain Walker and dispatches on
its outcome; listeners receive duplicated holds, so the actor's own hold is
released exactly once on every path.  The forwarding path hands the packet to
the Forwarding Decision Engine and then releases the actor's hold regardless
of the forwarding outcome (forwarding hands over duplicated ownership). -/
def on_receive (maxHdrs : Nat) (local_dst : Bool) (fib : List FibEntry)
    (resolved : Bool) (hdr : Ipv6Hdr) (buf : List Nat) :
    RcvOutcome × Nat :=
  if hdr.version ≠ 6 then
    (.dropped, 1)
  else if local_dst then
    match gnrc_ipv6_demux maxHdrs buf hdr.next_hdr with
    | .delivered p _ => (.dispatched p, 1)
    | .forward _ =>
      match forward fib resolved hdr with
      | .Forwarded _ => (.forwarded, 1)
      | .Queued _ => (.forwarded, 1)
      | .HopLimitExceeded => (.dropped, 1)
      | .NoRoute => (.dropped, 1)
    | .error _ => (.dropped, 1)
  else if hdr.hop_limit = 0 then
    (.dropped, 1)
  else
    match forward fib resolved hdr with
    | .Forwarded _ => (.forwarded, 1)
    | .Queued _ => (.forwarded, 1)
    | .HopLimitExceeded => (.dropped, 1)
    | .NoRoute => (.dropped, 1)

/-- Modelled from the spec: the sender transfers one reference-count hold to
the mailbox when posting (spec §3, Mailbox Message ownership); `c` is the
packet's hold count before the post. -/
def post_hold (c : Nat) : Nat := c + 1

/-! Send pipeline with reference-count accounting. -/

/-- Exit paths of the Send Pipeline (spec §4.4): handed to the link layer,
queued pending neighbor resolution, dropped (`NoSourceAddress`, no route, or
hop limit), or looped back through the Receive Pipeline when the destination
is this node itself. -/
inductive SndOutcome
  | sent
  | queued
  | dropped
  | looped_back (r : RcvOutcome)
  deriving DecidableEq, Repr

/-- Modelled from the spec: the Send Pipeline fills unset header fields with
defaults (spec §4.4): hop limit from a configurable default when unset, and
payload length computed from the chain byte length. -/
def fill_defaults (default_hl : Nat) (chain_len : Nat) (hdr : Ipv6Hdr) :
    Ipv6Hdr :=
  { hdr with
    hop_limit := if hdr.hop_limit = 0 then default_hl else hdr.hop_limit,
    payload_len := chain_len }

/-- Modelled from the spec: the routing tail of the Send Pipeline (spec §4.4):
a destination that is this node itself re-enters the Receive Pipeline
(loopback-style local delivery), otherwise the completed header is handed to
the Forwarding Decision Engine; on every path the actor's hold is released
exactly once (the loopback path releases through the Receive Pipeline). -/
def send_route (maxHdrs : Nat) (dst_is_self : Bool) (local_dst : Bool)
    (fib : List FibEntry) (resolved : Bool) (hdr : Ipv6Hdr) (buf : List Nat) :
    SndOutcome × Nat :=
  if dst_is_self then
    let r := on_receive maxHdrs local_dst fib resolved hdr buf
    (.looped_back r.1, r.2)
  else
    match forward fib resolved hdr with
    | .Forwarded _ => (.sent, 1)
    | .Queued _ => (.queued, 1)
    | .HopLimitExceeded => (.dropped, 1)
    | .NoRoute => (.dropped, 1)

/-- Modelled from the spec: the Send Pipeline `on_send` (spec §4.4) is not
under `src/`.  It fills header defaults, selects a source address when the
caller left it unspecified (the unspecified address is the empty bit string;
`src_select` models the address-selection collaborator, `none` meaning no
usable address is configured, which fails the send with `NoSourceAddress` —
a drop that still releases the actor's hold exactly once), and hands the
packet on via `send_route`.  The second component is the number of releases
of the packet's hold performed on the taken path. -/
def on_send (maxHdrs : Nat) (default_hl : Nat) (src_select : Option (List Bool))
    (dst_is_self : Bool) (local_dst : Bool) (fib : List FibEntry)
    (resolved : Bool) (hdr : Ipv6Hdr) (buf : List Nat) : SndOutcome × Nat :=
  if (fill_defaults default_hl buf.length hdr).src = [] then
    match src_select with
    | none => (.dropped, 1)
    | some a =>
      send_route maxHdrs dst_is_self local_dst fib resolved
        { fill_defaults default_hl buf.length hdr with src := a } buf
  else
    send_route maxHdrs dst_is_self local_dst fib resolved
      (fill_defaults default_hl buf.length hdr) buf

/-- Modelled from the spec: the Control Actor dispatches each dequeued mailbox
message to the Receive Pipeline (`RECEIVE`) or the Send Pipeline (`SEND`)
(spec §2 and §4.5).  The collaborator answers (locality, source selection,
routing table, neighbor resolution) and the parsed header and buffer of the
message's packet are passed explicitly; the result is the number of releases
of the packet's hold the processing performed. -/
def process_msg (maxHdrs default_hl : Nat) (local_dst dst_is_self : Bool)
    (src_select : Option (List Bool)) (fib : List FibEntry) (resolved : Bool)
    (hdr : Ipv6Hdr) (buf : List Nat) : MboxMsg → Nat
  | .RECEIVE _ _ => (on_receive maxHdrs local_dst fib resolved hdr buf).2
  | .SEND _ =>
    (on_send maxHdrs default_hl src_select dst_is_self local_dst fib resolved
      hdr buf).2

/-- Hold count of the packet after the Control Actor processed the message:
the count at dequeue minus the releases the processing performed. -/
def process_msg_holds (maxHdrs default_hl : Nat) (local_dst dst_is_self : Bool)
    (src_select : Option (List Bool)) (fib : List FibEntry) (resolved : Bool)
    (hdr : Ipv6Hdr) (buf : List Nat) (m : MboxMsg) (c : Nat) : Nat :=
  post_hold c -
    process_msg maxHdrs default_hl local_dst dst_is_self src_select fib
      resolved hdr buf m

/-! Static link-local address assignment. -/

/-- A network interface as the address-configuration collaborator sees it:
its list of configured IPv6 addresses (each a 128-bit value as a `Nat`),
containing the auto-generated link-local address after interface start-up. -/
structure Netif where
  addrs : List Nat
  deriving DecidableEq, Repr

/-- Modelled from the spec: applying `GNRC_IPV6_STATIC_LLADDR` at startup
(ipv6.h lines 71-88: the static link-local address is assigned to every
network interface on startup; an interface keeps its auto-generated link-local
address too; the address is incremented by 1 if multiple interfaces are
present).  `a` is the configured static address for the first interface. -/
def apply_static_lladdr : Nat → List Netif → List Netif
  | _, [] => []
  | a, n :: rest =>
    { n with addrs := n.addrs ++ [a] } :: apply_static_lladdr (a + 1) rest

/-! Helper lemmas about the walk. -/

/-- When the next-header value is not an extension header, the walk traverses
no extension header at all, whatever the fuel. -/
lemma walkSteps_eq_zero_of_not_ext (buf : List Nat) (F off nh : Nat)
    (first : Bool) (h : is_ext_header nh = false) :
    walkSteps buf F off nh first = 0 := by
  cases F with
  | zero => rfl
  | succ F => simp [walkSteps, h]

/-- When the walk traverses more extension headers than the fuel allows, the
fueled walk is rejected with `TooManyHeaders`. -/
lemma walkAux_tooMany (buf : List Nat) :
    ∀ (fuel F off nh : Nat) (first : Bool),
      fuel < walkSteps buf F off nh first →
      walkAux buf fuel off nh first = .error .TooManyHeaders := by
  intro fuel
  induction fuel with
  | zero =>
    intro F off nh first h
    by_cases he : is_ext_header nh
    · simp [walkAux, he]
    · rw [walkSteps_eq_zero_of_not_ext buf F off nh first
        (Bool.not_eq_true _ ▸ he)] at h
      omega
  | succ fuel ih =>
    intro F off nh first h
    cases F with
    | zero => simp [walkSteps] at h
    | succ F =>
      simp only [walkSteps] at h
      simp only [walkAux]
      split_ifs at h ⊢ with h1 h2 h3 h4 h5
      · omega
      · omega
      · exact ih F (off + (buf.getD (off + 1) 0 + 1) * 8)
          (buf.getD off 0) false (by omega)
      · omega
      · omega
      · omega

/-- Every byte offset the walk reads lies inside the buffer. -/
lemma walkReads_lt (buf : List Nat) :
    ∀ (fuel off nh : Nat) (first : Bool) (i : Nat),
      i ∈ walkReads buf fuel off nh first → i < buf.length := by
  intro fuel
  induction fuel with
  | zero =>
    intro off nh first i h
    simp [walkReads] at h
  | succ fuel ih =>
    intro off nh first i h
    simp only [walkReads] at h
    split_ifs at h with h1 h2 h3 h4 h5
    · simp at h
    · simp at h
    · rcases List.mem_append.mp h with h6 | h6
      · have h7 := List.mem_range'_1.mp h6
        omega
      · exact ih _ _ _ _ h6
    · simp at h
      omega
    · simp at h
    · simp at h

/-! Claim theorems. -/

/-- C1, counterexample: the claim says `gnrc_ipv6_demux` returns a
`DemuxOutcome` value to its caller, but its declared return type in ipv6.h
line 154 is `void`: it carries no value back to the caller at all. -/
theorem C1_demux_returns_no_value :
    ¬ (CReturn.carriesValue gnrc_ipv6_demux_ret = true) := by
  decide

/-- C1, amended: the outcome the demultiplex operation computes is exactly one
of `delivered` (protocol number and payload position), `forward`, or `error`;
but the C entry point `gnrc_ipv6_demux` is declared `void` and returns no
value to its caller — the outcome drives internal dispatch instead. -/
theorem C1_demux_outcome_exhaustive (maxHdrs : Nat) (buf : List Nat) (nh : Nat) :
    gnrc_ipv6_demux_ret = CReturn.void ∧
    ((∃ p o, gnrc_ipv6_demux maxHdrs buf nh = .delivered p o) ∨
     (∃ o, gnrc_ipv6_demux maxHdrs buf nh = .forward o) ∨
     (∃ k, gnrc_ipv6_demux maxHdrs buf nh = .error k)) := by
  refine ⟨rfl, ?_⟩
  cases h : gnrc_ipv6_demux maxHdrs buf nh with
  | delivered p o => exact Or.inl ⟨p, o, rfl⟩
  | forward o => exact Or.inr (Or.inl ⟨o, rfl⟩)
  | error k => exact Or.inr (Or.inr ⟨k, rfl⟩)

/-- C2: on a fresh state, `gnrc_ipv6_init` returns the PID of the created
thread; a second initialization attempt returns `-EEXIST` (an error, not a
silent no-op); and resource exhaustion at thread creation returns
`-EOVERFLOW`. -/
theorem C2_init_contract (s : IpState) (p q : Nat)
    (hs : s.gnrc_ipv6_pid = KERNEL_PID_UNDEF) (hp : p ≠ KERNEL_PID_UNDEF) :
    (gnrc_ipv6_init (some p) s).1 = (p : Int) ∧
    (gnrc_ipv6_init (some q) (gnrc_ipv6_init (some p) s).2).1 = -EEXIST ∧
    (gnrc_ipv6_init (some q) (gnrc_ipv6_init (some p) s).2).1 < 0 ∧
    (gnrc_ipv6_init none s).1 = -EOVERFLOW := by
  simp [gnrc_ipv6_init, hs, hp, EEXIST, EOVERFLOW]

/-- C2, witness: a concrete run of the contract at PID 4 then 5. -/
theorem C2_init_contract_witness :
    (gnrc_ipv6_init (some 4) ⟨0⟩).1 = 4 ∧
    (gnrc_ipv6_init (some 5) (gnrc_ipv6_init (some 4) ⟨0⟩).2).1 = -EEXIST ∧
    (gnrc_ipv6_init (some 5) (gnrc_ipv6_init (some 4) ⟨0⟩).2).1 < 0 ∧
    (gnrc_ipv6_init none ⟨0⟩).1 = -EOVERFLOW :=
  C2_init_contract ⟨0⟩ 4 5 rfl (by decide)

/-- C3: the header accessor does not mutate the chain; when the chain contains
an IPv6 header snip it returns that snip's header data, and when the chain
contains none it returns `none` rather than failing. -/
theorem C3_get_header_contract (pkt : List Pktsnip) :
    (gnrc_ipv6_get_header pkt).2 = pkt ∧
    ((∃ s ∈ pkt, s.type = Nettype.ipv6) →
      ∃ w ∈ pkt, w.type = Nettype.ipv6 ∧
        (gnrc_ipv6_get_header pkt).1 = some w.data) ∧
    ((∀ s ∈ pkt, s.type ≠ Nettype.ipv6) →
      (gnrc_ipv6_get_header pkt).1 = none) := by
  refine ⟨rfl, ?_, ?_⟩
  · rintro ⟨s, hs, ht⟩
    cases hfind : pkt.find? (fun x => x.type == Nettype.ipv6) with
    | none =>
      rw [List.find?_eq_none] at hfind
      exact absurd (by simpa using ht) (by simpa using hfind s hs)
    | some w =>
      refine ⟨w, List.mem_of_find?_eq_some hfind, ?_, ?_⟩
      · simpa using List.find?_some hfind
      · simp [gnrc_ipv6_get_header, hfind]
  · intro hall
    have hnone : pkt.find? (fun x => x.type == Nettype.ipv6) = none := by
      rw [List.find?_eq_none]
      intro x hx
      simpa using hall x hx
    simp [gnrc_ipv6_get_header, hnone]

/-- C3, witness: a concrete chain holding a netif snip and an IPv6 snip; the
lookup leaves the chain unchanged and returns the IPv6 snip's data. -/
theorem C3_get_header_witness :
    (gnrc_ipv6_get_header [⟨Nettype.netif, [1]⟩, ⟨Nettype.ipv6, [6, 0]⟩]).2 =
      [⟨Nettype.netif, [1]⟩, ⟨Nettype.ipv6, [6, 0]⟩] ∧
    ∃ w ∈ ([⟨Nettype.netif, [1]⟩, ⟨Nettype.ipv6, [6, 0]⟩] : List Pktsnip),
      w.type = Nettype.ipv6 ∧
      (gnrc_ipv6_get_header
        [⟨Nettype.netif, [1]⟩, ⟨Nettype.ipv6, [6, 0]⟩]).1 = some w.data :=
  ⟨(C3_get_header_contract _).1, (C3_get_header_contract _).2.1 (by decide)⟩

/-- C4: when the number of extension headers the walk traverses exceeds the
configured maximum, the demultiplex operation returns the `TooManyHeaders`
error; and every byte offset it reads lies inside the snip buffer. -/
theorem C4_demux_too_many_headers (maxHdrs : Nat) (buf : List Nat) (nh : Nat) :
    (maxHdrs < demuxExtCount buf nh →
      gnrc_ipv6_demux maxHdrs buf nh = .error .TooManyHeaders) ∧
    (demuxReads maxHdrs buf nh).all (fun i => decide (i < buf.length)) = true :=
  ⟨fun h => walkAux_tooMany buf maxHdrs (buf.length + 1) 0 nh true h,
   List.all_eq_true.mpr
     (fun i hi => decide_eq_true (walkReads_lt buf maxHdrs 0 nh true i hi))⟩

/-- C4, witness: a 16-byte buffer holding two destination-options headers
followed by a UDP payload exceeds a configured maximum of 1 and is rejected
with `TooManyHeaders`. -/
theorem C4_demux_too_many_headers_witness :
    1 < demuxExtCount [60, 0, 0, 0, 0, 0, 0, 0, 17, 0, 0, 0, 0, 0, 0, 0] 60 ∧
    gnrc_ipv6_demux 1 [60, 0, 0, 0, 0, 0, 0, 0, 17, 0, 0, 0, 0, 0, 0, 0] 60 =
      .error .TooManyHeaders :=
  ⟨by decide,
   (C4_demux_too_many_headers 1 _ 60).1 (by decide)⟩

/-- C5: a packet arriving with hop limit 0 is not forwarded — the engine
returns `HopLimitExceeded` before any decrement; a packet arriving with hop
limit exactly 1 whose destination has a route is decremented to 0 and still
leaves the engine toward the link layer (`Forwarded`, or `Queued` pending
neighbor resolution), so the drop decision is made before the decrement. -/
theorem C5_forward_hop_limit (fib : List FibEntry) (resolved : Bool)
    (hdr : Ipv6Hdr) :
    (hdr.hop_limit = 0 → forward fib resolved hdr = .HopLimitExceeded) ∧
    (hdr.hop_limit = 1 → lpm fib hdr.dst ≠ none →
      (forward fib resolved hdr = .Forwarded { hdr with hop_limit := 0 } ∨
       forward fib resolved hdr = .Queued { hdr with hop_limit := 0 })) := by
  constructor
  · intro h0
    simp [forward, h0]
  · intro h1 hr
    cases hl : lpm fib hdr.dst with
    | none => exact absurd hl hr
    | some e =>
      cases resolved with
      | true => exact Or.inl (by simp [forward, h1, hl])
      | false => exact Or.inr (by simp [forward, h1, hl])

/-- C5, witness: with a default route present and the neighbor resolved, a
concrete packet with hop limit 1 is still forwarded, with hop limit 0. -/
theorem C5_forward_hop_limit_witness :
    forward [⟨[], 9, 0⟩] true ⟨6, 1, [], [true], 17, 0⟩ =
      .Forwarded ⟨6, 0, [], [true], 17, 0⟩ ∨
    forward [⟨[], 9, 0⟩] true ⟨6, 1, [], [true], 17, 0⟩ =
      .Queued ⟨6, 0, [], [true], 17, 0⟩ :=
  (C5_forward_hop_limit [⟨[], 9, 0⟩] true ⟨6, 1, [], [true], 17, 0⟩).2
    rfl (by decide)

/-- Every exit path of the Receive Pipeline releases the hold exactly once. -/
lemma on_receive_releases_one (maxHdrs : Nat) (local_dst : Bool)
    (fib : List FibEntry) (resolved : Bool) (hdr : Ipv6Hdr) (buf : List Nat) :
    (on_receive maxHdrs local_dst fib resolved hdr buf).2 = 1 := by
  unfold on_receive
  split_ifs <;>
    first
      | rfl
      | (split <;> first | rfl | (split <;> rfl))

/-- Every exit path of the Send Pipeline's routing tail releases exactly
once. -/
lemma send_route_releases_one (maxHdrs : Nat) (dst_is_self local_dst : Bool)
    (fib : List FibEntry) (resolved : Bool) (hdr : Ipv6Hdr) (buf : List Nat) :
    (send_route maxHdrs dst_is_self local_dst fib resolved hdr buf).2 = 1 := by
  unfold send_route
  split_ifs with h
  · exact on_receive_releases_one maxHdrs local_dst fib resolved hdr buf
  · split <;> rfl

/-- Every exit path of the Send Pipeline — including the `NoSourceAddress`
failure and the loopback re-entry into the Receive Pipeline — releases the
hold exactly once. -/
lemma on_send_releases_one (maxHdrs default_hl : Nat)
    (src_select : Option (List Bool)) (dst_is_self local_dst : Bool)
    (fib : List FibEntry) (resolved : Bool) (hdr : Ipv6Hdr) (buf : List Nat) :
    (on_send maxHdrs default_hl src_select dst_is_self local_dst fib resolved
      hdr buf).2 = 1 := by
  unfold on_send
  split_ifs with h
  · cases src_select with
    | none => rfl
    | some a => exact send_route_releases_one _ _ _ _ _ _ _
  · exact send_route_releases_one _ _ _ _ _ _ _

/-- C6: for every mailbox message — `RECEIVE` processed by the Receive
Pipeline or `SEND` processed by the Send Pipeline — exactly one release of
the packet's hold is performed on every exit path (dispatch, drop, forward,
`NoSourceAddress` failure, or loopback), so the hold count after processing
equals the count before the message was posted. -/
theorem C6_release_exactly_once (maxHdrs default_hl : Nat)
    (local_dst dst_is_self : Bool) (src_select : Option (List Bool))
    (fib : List FibEntry) (resolved : Bool) (hdr : Ipv6Hdr) (buf : List Nat)
    (m : MboxMsg) (c : Nat) :
    process_msg maxHdrs default_hl local_dst dst_is_self src_select fib
      resolved hdr buf m = 1 ∧
    process_msg_holds maxHdrs default_hl local_dst dst_is_self src_select fib
      resolved hdr buf m c = c := by
  have h1 : process_msg maxHdrs default_hl local_dst dst_is_self src_select
      fib resolved hdr buf m = 1 := by
    cases m with
    | RECEIVE i p =>
      exact on_receive_releases_one maxHdrs local_dst fib resolved hdr buf
    | SEND p =>
      exact on_send_releases_one maxHdrs default_hl src_select dst_is_self
        local_dst fib resolved hdr buf
  exact ⟨h1, by simp [process_msg_holds, post_hold, h1]⟩

/-- C7: the Control Actor's mailbox capacity defaults to 8 slots, and a
successful post to a mailbox of that capacity never leaves more than 8
messages queued. -/
theorem C7_msg_queue_default_eight :
    GNRC_IPV6_MSG_QUEUE_SIZE none = 8 ∧
    ∀ q m r, mbox_post (GNRC_IPV6_MSG_QUEUE_SIZE none) q m = some r →
      r.length ≤ 8 := by
  refine ⟨rfl, fun q m r h => ?_⟩
  unfold mbox_post at h
  split_ifs at h with hq
  cases h
  simp only [List.length_append, List.length_cons, List.length_nil]
  have hq8 : q.length < 8 := by simpa [GNRC_IPV6_MSG_QUEUE_SIZE] using hq
  omega

/-- C7, witness: posting one message to the empty mailbox of default capacity
leaves at most 8 queued. -/
theorem C7_msg_queue_witness :
    ([MboxMsg.SEND []] : List MboxMsg).length ≤ 8 :=
  C7_msg_queue_default_eight.2 [] (MboxMsg.SEND []) [MboxMsg.SEND []] rfl

/-- C8: the routing table capacity is 5 entries in the default build and 20
entries when the RPL module is part of the build configuration. -/
theorem C8_fib_table_size :
    GNRC_IPV6_FIB_TABLE_SIZE none false = 5 ∧
    GNRC_IPV6_FIB_TABLE_SIZE none true = 20 := by
  decide

/-- Applying the static link-local address preserves each interface. -/
lemma apply_static_lladdr_getD (a : Nat) (ifs : List Netif) :
    ∀ i, i < ifs.length →
      ((apply_static_lladdr a ifs).getD i ⟨[]⟩).addrs =
        (ifs.getD i ⟨[]⟩).addrs ++ [a + i] := by
  induction ifs generalizing a with
  | nil =>
    intro i hi
    exact absurd hi (by simp)
  | cons n rest ih =>
    intro i hi
    cases i with
    | zero => simp [apply_static_lladdr]
    | succ j =>
      have hj : j < rest.length := by simpa using hi
      have := ih (a + 1) j hj
      simp only [apply_static_lladdr, List.getD_cons_succ]
      rw [this]
      have : a + 1 + j = a + (j + 1) := by omega
      rw [this]

/-- C9: applying the build-time static link-local address at startup appends
the static address (incremented by the interface index) to the interface's
address list: every address the interface already had — including its
auto-generated link-local address — is kept, and the static address is
present in addition. -/
theorem C9_static_lladdr_keeps_auto (a : Nat) (ifs : List Netif) (i : Nat)
    (hi : i < ifs.length) :
    ((apply_static_lladdr a ifs).getD i ⟨[]⟩).addrs =
      (ifs.getD i ⟨[]⟩).addrs ++ [a + i] :=
  apply_static_lladdr_getD a ifs i hi

/-- C9, witness: two interfaces with auto-generated addresses 1 and 2; after
applying static address 100, the second interface holds both its
auto-generated address 2 and the incremented static address 101. -/
theorem C9_static_lladdr_witness :
    ((apply_static_lladdr 100 [⟨[1]⟩, ⟨[2]⟩]).getD 1 ⟨[]⟩).addrs = [2, 101] :=
  C9_static_lladdr_keeps_auto 100 [⟨[1]⟩, ⟨[2]⟩] 1 (by decide)

/-- C10: every call to `gnrc_ipv6_init` either fails with `-EEXIST` or
`-EOVERFLOW`, both negative, or succeeds returning the created thread's PID,
a non-negative value that is also recorded in the state — so success and
failure are disjoint and distinguishable by the sign of the return value. -/
theorem C10_init_sign_disjoint (tc : Option Nat) (s : IpState) :
    ((gnrc_ipv6_init tc s).1 = -EEXIST ∧ (gnrc_ipv6_init tc s).1 < 0) ∨
    ((gnrc_ipv6_init tc s).1 = -EOVERFLOW ∧ (gnrc_ipv6_init tc s).1 < 0) ∨
    (∃ p, tc = some p ∧ (gnrc_ipv6_init tc s).1 = (p : Int) ∧
      0 ≤ (gnrc_ipv6_init tc s).1 ∧
      (gnrc_ipv6_init tc s).2.gnrc_ipv6_pid = p) := by
  by_cases hs : s.gnrc_ipv6_pid ≠ KERNEL_PID_UNDEF
  · exact Or.inl (by simp [gnrc_ipv6_init, hs, EEXIST])
  · cases tc with
    | none =>
      exact Or.inr (Or.inl (by simp [gnrc_ipv6_init, hs, EOVERFLOW]))
    | some p =>
      refine Or.inr (Or.inr ⟨p, rfl, ?_, ?_, ?_⟩) <;>
        simp [gnrc_ipv6_init, hs]

end GnrcIpv6
